import Mathlib

/-!
Verification of `tailwind.config.js`.

Shallow embedding of the object literal exported by `tailwind.config.js`
and the structural properties of its design tokens.
-/

namespace TailwindConfig

/-- Property name of an object literal: a numeric literal such as `50`, or an
identifier / quoted string such as `DEFAULT` or `'custom-lg'`. -/
inductive Key where
  | num (n : Nat)
  | name (s : String)
  deriving DecidableEq, Repr

/-- Values that occur in the exported object literal. -/
inductive Value where
  | str (s : String)
  | arr (items : List Value)
  | obj (fields : List (Key × Value))

/-- Fields of an object value, in source order; other values have none. -/
def Value.fields : Value → List (Key × Value)
  | .obj fs => fs
  | _ => []

/-- Property names of an object value, in source order. -/
def Value.keys (v : Value) : List Key :=
  v.fields.map Prod.fst

/-- Property access `v[k]`; when a name is written twice in an object literal
the later field wins. -/
def Value.get? (v : Value) (k : Key) : Option Value :=
  v.fields.reverse.lookup k

/-- Text of a string value. -/
def Value.str? : Value → Option String
  | .str s => some s
  | _ => none

/-- The `primary` shade scale (source lines 10-22). -/
def primary : Value := .obj [
  (.name "DEFAULT", .str "#6B1C1D"),
  (.num 50, .str "#F9E9E9"),
  (.num 100, .str "#F0C9CA"),
  (.num 200, .str "#E19C9D"),
  (.num 300, .str "#CB6163"),
  (.num 400, .str "#A62E30"),
  (.num 500, .str "#6B1C1D"),
  (.num 600, .str "#5E1819"),
  (.num 700, .str "#501415"),
  (.num 800, .str "#430F10"),
  (.num 900, .str "#350C0D")]

/-- The `accent` shade scale (source lines 23-35). -/
def accent : Value := .obj [
  (.name "DEFAULT", .str "#9A1F21"),
  (.num 50, .str "#FCEAEB"),
  (.num 100, .str "#F6CACB"),
  (.num 200, .str "#EB9A9C"),
  (.num 300, .str "#DB6062"),
  (.num 400, .str "#BC3134"),
  (.num 500, .str "#9A1F21"),
  (.num 600, .str "#881C1E"),
  (.num 700, .str "#75181A"),
  (.num 800, .str "#621415"),
  (.num 900, .str "#4F1011")]

/-- The `gray` shade scale (source lines 36-47). -/
def gray : Value := .obj [
  (.num 50, .str "#F5F5F5"),
  (.num 100, .str "#EBEBEB"),
  (.num 200, .str "#D8D8D8"),
  (.num 300, .str "#C0C0C0"),
  (.num 400, .str "#A8A8A8"),
  (.num 500, .str "#888888"),
  (.num 600, .str "#6D6D6D"),
  (.num 700, .str "#4A4A4A"),
  (.num 800, .str "#333333"),
  (.num 900, .str "#1A1A1A")]

/-- The object under `theme.extend` (source lines 5-56). -/
def extend : Value := .obj [
  (.name "fontFamily", .obj [
    (.name "sans", .arr [.str "Poppins", .str "sans-serif"])]),
  (.name "colors", .obj [
    (.name "primary", primary),
    (.name "accent", accent),
    (.name "gray", gray)]),
  (.name "boxShadow", .obj [
    (.name "custom", .str "0 4px 20px rgba(0, 0, 0, 0.08)"),
    (.name "custom-lg", .str "0 10px 30px rgba(0, 0, 0, 0.12)")]),
  (.name "animation", .obj [
    (.name "pulse-slow", .str "pulse 3s cubic-bezier(0.4, 0, 0.6, 1) infinite")])]

/-- The exported configuration object (source lines 2-59). -/
def config : Value := .obj [
  (.name "content", .arr [.str "./index.html", .str "./src/**/*.{js,ts,jsx,tsx}"]),
  (.name "theme", .obj [(.name "extend", extend)]),
  (.name "plugins", .arr [])]

/-- Path access `v[k1][k2]...`. -/
def Value.path? (v : Value) : List Key → Option Value
  | [] => some v
  | k :: ks =>
    match v.get? k with
    | some w => w.path? ks
    | none => none

/-- The object `config.theme.extend.colors`, with no fields if absent. -/
def colors : Value :=
  (config.path? [.name "theme", .name "extend", .name "colors"]).getD (.obj [])

/-- Value of one hexadecimal digit, upper or lower case. -/
def hexDigit? (c : Char) : Option Nat :=
  let n := c.toNat
  if 48 ≤ n ∧ n ≤ 57 then some (n - 48)
  else if 65 ≤ n ∧ n ≤ 70 then some (n - 55)
  else if 97 ≤ n ∧ n ≤ 102 then some (n - 87)
  else none

/-- Red, green and blue channels of a `#RRGGBB` string; `none` when the
string is not `#` followed by exactly six hexadecimal digits. -/
def rgb? (s : String) : Option (Nat × Nat × Nat) :=
  match s.data with
  | ['#', r1, r0, g1, g0, b1, b0] =>
    match hexDigit? r1, hexDigit? r0, hexDigit? g1, hexDigit? g0,
        hexDigit? b1, hexDigit? b0 with
    | some a, some b, some c, some d, some e, some f =>
      some (16 * a + b, 16 * c + d, 16 * e + f)
    | _, _, _, _, _, _ => none
  | _ => none

/-- Channels of a token value, when it is a `#RRGGBB` string. -/
def Value.rgb? (v : Value) : Option (Nat × Nat × Nat) :=
  v.str?.bind TailwindConfig.rgb?

/-- One character of a hex color body: `0-9`, `a-f` or `A-F`. -/
def isHexDigit (c : Char) : Bool :=
  ('0' ≤ c && c ≤ '9') || ('a' ≤ c && c ≤ 'f') || ('A' ≤ c && c ≤ 'F')

/-- Syntactic validity of a hex color: `#` followed by exactly six characters,
each in `0-9`, `a-f` or `A-F`. -/
def isHexColor (s : String) : Bool :=
  match s.data with
  | [h, a, b, c, d, e, f] => h == '#' && [a, b, c, d, e, f].all isHexDigit
  | _ => false

/-- A token value that is a syntactically valid hex color string. -/
def Value.isHexColor : Value → Bool
  | .str s => TailwindConfig.isHexColor s
  | _ => false

/-- A token value that is a string. -/
def Value.isString : Value → Bool
  | .str _ => true
  | _ => false

/-- A token value that is a list of strings. -/
def Value.isStringList : Value → Bool
  | .arr items => items.all Value.isString
  | _ => false

/-- The ten numeric shade keys. -/
def numericShadeKeys : List Key :=
  [.num 50, .num 100, .num 200, .num 300, .num 400, .num 500, .num 600,
   .num 700, .num 800, .num 900]

/-- The fixed set of shade keys named by the specification: the ten numeric
keys and `DEFAULT`. -/
def shadeKeys : List Key :=
  numericShadeKeys ++ [.name "DEFAULT"]

/-- A shade-scale mapping: an object whose keys are shade keys and whose
values are hex color strings. -/
def Value.isShadeScale : Value → Bool
  | .obj fs => fs.all fun kv => decide (kv.1 ∈ shadeKeys) && kv.2.isHexColor
  | _ => false

/-- A numeric key between 50 and 900. -/
def Key.isShadeNumber : Key → Bool
  | .num n => decide (50 ≤ n) && decide (n ≤ 900)
  | .name _ => false

/-- Braces are balanced and unnested; the flag tells whether a group is open. -/
def bracesOk : Bool → List Char → Bool
  | inside, [] => !inside
  | inside, c :: cs =>
    if c = '{' then !inside && bracesOk true cs
    else if c = '}' then inside && bracesOk false cs
    else bracesOk inside cs

/-- Every brace group is a comma-separated list of non-empty alternatives.
The state is `none` outside a group and `some n` inside one, `n` being the
number of characters read in the current alternative. -/
def groupsOk : Option Nat → List Char → Bool
  | _, [] => true
  | none, c :: cs => if c = '{' then groupsOk (some 0) cs else groupsOk none cs
  | some n, c :: cs =>
    if c = '}' then decide (0 < n) && groupsOk none cs
    else if c = ',' then decide (0 < n) && groupsOk (some 0) cs
    else groupsOk (some (n + 1)) cs

/-- No empty path segment: `/` is never followed directly by `/`. -/
def noEmptySegment : List Char → Bool
  | [] => true
  | a :: rest =>
    (match rest with
      | b :: _ => !(a == '/' && b == '/')
      | [] => true) && noEmptySegment rest

/-- Elements of a list value, in source order; other values have none. -/
def Value.items : Value → List Value
  | .arr xs => xs
  | _ => []

/-- Both values are `#RRGGBB` strings and every channel of the second is
strictly below the same channel of the first, as is the channel sum. -/
def darker (va vb : Value) : Bool :=
  match va.rgb?, vb.rgb? with
  | some (ra, ga, ba), some (rb, gb, bb) =>
    decide (rb < ra) && decide (gb < ga) && decide (bb < ba)
      && decide (rb + gb + bb < ra + ga + ba)
  | _, _ => false

/-- Two fields of one scale respect the darkening order whenever both keys
are numeric and the first key is the smaller one. -/
def darkerWhenOrdered (p q : Key × Value) : Bool :=
  match p.1, q.1 with
  | .num a, .num b => if a < b then darker p.2 q.2 else true
  | _, _ => true

/-- Hue family of a red scale: red strictly above green and blue, green at
most blue. -/
def isReddish (v : Value) : Bool :=
  match v.rgb? with
  | some (r, g, b) => decide (g < r) && decide (b < r) && decide (g ≤ b)
  | none => false

/-- Achromatic color: the three channels are equal. -/
def isAchromatic (v : Value) : Bool :=
  match v.rgb? with
  | some (r, g, b) => decide (r = g) && decide (g = b)
  | none => false

/-! ## Access lemmas -/

theorem lookup_mem {k : Key} {w : Value} :
    ∀ {l : List (Key × Value)}, l.lookup k = some w → (k, w) ∈ l
  | [], h => by simp [List.lookup] at h
  | (a, b) :: l, h => by
    by_cases hk : k = a
    · subst hk
      simp [List.lookup] at h
      subst h
      exact List.mem_cons_self _ _
    · have hb : (k == a) = false := by simpa using hk
      simp only [List.lookup, hb] at h
      exact List.mem_cons_of_mem _ (lookup_mem h)

theorem get?_mem {v : Value} {k : Key} {w : Value} (h : v.get? k = some w) :
    (k, w) ∈ v.fields := by
  have := lookup_mem h
  simpa using this

theorem mem_keys_of_get? {v : Value} {k : Key} {w : Value} (h : v.get? k = some w) :
    k ∈ v.keys :=
  List.mem_map.mpr ⟨(k, w), get?_mem h, rfl⟩

theorem exists_field_of_mem_keys {v : Value} {k : Key} (h : k ∈ v.keys) :
    ∃ w, (k, w) ∈ v.fields := by
  obtain ⟨⟨a, w⟩, hm, rfl⟩ := List.mem_map.mp h
  exact ⟨w, hm⟩

theorem str_of_isHexColor {v : Value} (h : v.isHexColor = true) :
    ∃ c, v = .str c ∧ isHexColor c = true := by
  cases v with
  | str s => exact ⟨s, rfl, h⟩
  | arr items => simp [Value.isHexColor] at h
  | obj fs => simp [Value.isHexColor] at h

/-! ## Hex colors: validity agrees with channel parsing -/

theorem isHexDigit_iff (c : Char) : isHexDigit c = (hexDigit? c).isSome := by
  have h : ∀ a b : Char, (a ≤ b) ↔ a.toNat ≤ b.toNat := fun a b => Iff.rfl
  unfold isHexDigit hexDigit?
  simp only [h]
  have e0 : ('0' : Char).toNat = 48 := rfl
  have e9 : ('9' : Char).toNat = 57 := rfl
  have ea : ('a' : Char).toNat = 97 := rfl
  have ef : ('f' : Char).toNat = 102 := rfl
  have eA : ('A' : Char).toNat = 65 := rfl
  have eF : ('F' : Char).toNat = 70 := rfl
  simp only [e0, e9, ea, ef, eA, eF]
  generalize c.toNat = n
  by_cases h1 : 48 ≤ n ∧ n ≤ 57
  · simp [h1]
  · by_cases h2 : 65 ≤ n ∧ n ≤ 70
    · simp [h1, h2]
    · by_cases h3 : 97 ≤ n ∧ n ≤ 102
      · simp [h1, h2, h3]
      · simp [h1, h2, h3]
        omega

theorem isHexColor_iff (s : String) : isHexColor s = (rgb? s).isSome := by
  unfold isHexColor rgb?
  generalize s.data = l
  split
  · next h a b c d e f =>
    by_cases hh : h = '#'
    · subst hh
      simp only [List.all_cons, List.all_nil, isHexDigit_iff, beq_self_eq_true, Bool.true_and,
        Bool.and_true]
      cases hexDigit? a <;> cases hexDigit? b <;> cases hexDigit? c <;>
        cases hexDigit? d <;> cases hexDigit? e <;> cases hexDigit? f <;> rfl
    · have : (h == '#') = false := by simpa using hh
      simp only [this, Bool.false_and]
      split
      · next heq => simp at heq; exact absurd heq.1 hh
      · rfl
  · next hne =>
    split
    · next r1 r0 g1 g0 b1 b0 => exact absurd rfl (hne _ _ _ _ _ _ _)
    · rfl

/-! ## Color scales -/

/-- Claim C1. Every value of every color scale under `theme.extend.colors`
(the scales being `primary`, `accent` and `gray`), at every key of the scale,
`DEFAULT` included, is a string made of `#` followed by exactly six characters
in `0-9`, `a-f` or `A-F`. -/
theorem color_values_are_hex (scale : Key) (s : Value) (k : Key) (v : Value)
    (hs : colors.get? scale = some s) (hk : s.get? k = some v) :
    scale ∈ [Key.name "primary", Key.name "accent", Key.name "gray"] ∧
      ∃ c, v = .str c ∧ isHexColor c = true := by
  have h : ∀ p ∈ colors.fields,
      p.1 ∈ [Key.name "primary", Key.name "accent", Key.name "gray"] ∧
        ∀ q ∈ p.2.fields, q.2.isHexColor = true := by decide
  have hp := h _ (get?_mem hs)
  exact ⟨hp.1, str_of_isHexColor (hp.2 _ (get?_mem hk))⟩

theorem color_values_are_hex_witness :
    colors.get? (.name "primary") = some primary ∧
      primary.get? (.name "DEFAULT") = some (.str "#6B1C1D") ∧
      ∃ c, Value.str "#6B1C1D" = .str c ∧ isHexColor c = true :=
  ⟨rfl, rfl,
    (color_values_are_hex (.name "primary") primary (.name "DEFAULT") (.str "#6B1C1D")
      rfl rfl).2⟩

/-- Claim C2 as stated fails: `gray` is a color scale under
`theme.extend.colors` and has no `DEFAULT` key. -/
theorem gray_lacks_default :
    ¬ ∀ (scale : Key) (s : Value), colors.get? scale = some s →
        ∀ k ∈ shadeKeys, (s.get? k).isSome = true := by
  intro h
  have := h (.name "gray") gray rfl (.name "DEFAULT") (by decide)
  revert this
  decide

/-- Claim C2, amended. Every color scale under `theme.extend.colors` contains
all ten numeric shade keys 50, 100, ..., 900, so all scales are defined over
the same numeric shade keys; `primary` and `accent` contain `DEFAULT` as well. -/
theorem scales_have_numeric_keys (scale : Key) (s : Value)
    (hs : colors.get? scale = some s) :
    (∀ k ∈ numericShadeKeys, (s.get? k).isSome = true) ∧
      (scale ≠ .name "gray" → (s.get? (.name "DEFAULT")).isSome = true) := by
  have h : ∀ p ∈ colors.fields,
      (∀ k ∈ numericShadeKeys, (p.2.get? k).isSome = true) ∧
        (p.1 ≠ .name "gray" → (p.2.get? (.name "DEFAULT")).isSome = true) := by
    decide
  exact h _ (get?_mem hs)

theorem scales_have_numeric_keys_witness :
    colors.get? (.name "gray") = some gray ∧
      (∀ k ∈ numericShadeKeys, (gray.get? k).isSome = true) ∧
      (accent.get? (.name "DEFAULT")).isSome = true :=
  ⟨rfl, (scales_have_numeric_keys (.name "gray") gray rfl).1,
    (scales_have_numeric_keys (.name "accent") accent rfl).2 (by decide)⟩

/-- Claim C5 as stated fails: `primary` has the key `DEFAULT`, which is not a
number between 50 and 900. -/
theorem default_key_not_numeric :
    ¬ ∀ (scale : Key) (s : Value), colors.get? scale = some s →
        ∀ k ∈ s.keys, ∃ n, k = .num n ∧ 50 ≤ n ∧ n ≤ 900 := by
  intro h
  obtain ⟨n, hn, -⟩ := h (.name "primary") primary rfl (.name "DEFAULT") (by decide)
  cases hn

/-- Claim C5, amended. Every key of every color scale under
`theme.extend.colors` is either `DEFAULT` or a number `n` with
`50 ≤ n ≤ 900`. -/
theorem scale_keys_numeric_or_default (scale : Key) (s : Value) (k : Key)
    (hs : colors.get? scale = some s) (hk : k ∈ s.keys) :
    k = .name "DEFAULT" ∨ ∃ n, k = .num n ∧ 50 ≤ n ∧ n ≤ 900 := by
  have h : ∀ p ∈ colors.fields, ∀ q ∈ p.2.keys,
      q = .name "DEFAULT" ∨ q.isShadeNumber = true := by decide
  rcases h _ (get?_mem hs) k hk with hd | hn
  · exact Or.inl hd
  · cases k with
    | num n =>
      simp [Key.isShadeNumber] at hn
      exact Or.inr ⟨n, rfl, hn.1, hn.2⟩
    | name t => simp [Key.isShadeNumber] at hn

theorem scale_keys_numeric_or_default_witness :
    colors.get? (.name "accent") = some accent ∧ Key.num 900 ∈ accent.keys ∧
      (Key.num 900 = .name "DEFAULT" ∨ ∃ n, Key.num 900 = .num n ∧ 50 ≤ n ∧ n ≤ 900) :=
  ⟨rfl, by decide,
    scale_keys_numeric_or_default (.name "accent") accent (.num 900) rfl (by decide)⟩

theorem darker_spec {va vb : Value} (h : darker va vb = true) :
    ∃ ra ga ba rb gb bb, va.rgb? = some (ra, ga, ba) ∧ vb.rgb? = some (rb, gb, bb) ∧
      rb < ra ∧ gb < ga ∧ bb < ba ∧ rb + gb + bb < ra + ga + ba := by
  unfold darker at h
  rcases ha : va.rgb? with _ | ⟨ra, ga, ba⟩
  · simp [ha] at h
  · rcases hb : vb.rgb? with _ | ⟨rb, gb, bb⟩
    · simp [ha, hb] at h
    · simp only [ha, hb, Bool.and_eq_true, decide_eq_true_eq] at h
      exact ⟨ra, ga, ba, rb, gb, bb, rfl, rfl, h.1.1.1, h.1.1.2, h.1.2, h.2⟩

/-- Claim C3. In every color scale under `theme.extend.colors`, for any two
numeric shade keys `a < b`, the color at `b` is darker than the color at `a`:
both are `#RRGGBB` strings, each of the red, green and blue channels at `b` is
strictly smaller than the same channel at `a`, and so is the channel sum. -/
theorem shades_progressively_darker (scale : Key) (s : Value) (a b : Nat)
    (va vb : Value) (hs : colors.get? scale = some s) (hab : a < b)
    (ha : s.get? (.num a) = some va) (hb : s.get? (.num b) = some vb) :
    ∃ ra ga ba rb gb bb, va.rgb? = some (ra, ga, ba) ∧ vb.rgb? = some (rb, gb, bb) ∧
      rb < ra ∧ gb < ga ∧ bb < ba ∧ rb + gb + bb < ra + ga + ba := by
  have h : ∀ p ∈ colors.fields, ∀ q ∈ p.2.fields, ∀ r ∈ p.2.fields,
      darkerWhenOrdered q r = true := by decide
  have hqr := h _ (get?_mem hs) _ (get?_mem ha) _ (get?_mem hb)
  simp only [darkerWhenOrdered, hab, if_true] at hqr
  exact darker_spec hqr

theorem shades_progressively_darker_witness :
    colors.get? (.name "primary") = some primary ∧ 400 < 500 ∧
      primary.get? (.num 400) = some (.str "#A62E30") ∧
      primary.get? (.num 500) = some (.str "#6B1C1D") ∧
      ∃ ra ga ba rb gb bb, (Value.str "#A62E30").rgb? = some (ra, ga, ba) ∧
        (Value.str "#6B1C1D").rgb? = some (rb, gb, bb) ∧
        rb < ra ∧ gb < ga ∧ bb < ba ∧ rb + gb + bb < ra + ga + ba :=
  ⟨rfl, by decide, rfl, rfl,
    shades_progressively_darker (.name "primary") primary 400 500 (.str "#A62E30")
      (.str "#6B1C1D") rfl (by decide) rfl rfl⟩

theorem isReddish_spec {v : Value} (h : isReddish v = true) :
    ∃ r g b, v.rgb? = some (r, g, b) ∧ g < r ∧ b < r ∧ g ≤ b := by
  unfold isReddish at h
  rcases hv : v.rgb? with _ | ⟨r, g, b⟩
  · simp [hv] at h
  · simp only [hv, Bool.and_eq_true, decide_eq_true_eq] at h
    exact ⟨r, g, b, rfl, h.1.1, h.1.2, h.2⟩

theorem isAchromatic_spec {v : Value} (h : isAchromatic v = true) :
    ∃ r g b, v.rgb? = some (r, g, b) ∧ r = g ∧ g = b := by
  unfold isAchromatic at h
  rcases hv : v.rgb? with _ | ⟨r, g, b⟩
  · simp [hv] at h
  · simp only [hv, Bool.and_eq_true, decide_eq_true_eq] at h
    exact ⟨r, g, b, rfl, h.1, h.2⟩

theorem colors_fields :
    colors.fields =
      [(.name "primary", primary), (.name "accent", accent), (.name "gray", gray)] :=
  rfl

/-- Claim C9. In every color scale under `theme.extend.colors` that has a
`DEFAULT` key, the `DEFAULT` color is the color at shade 500 of that scale. -/
theorem default_is_shade_500 (scale : Key) (s d : Value)
    (hs : colors.get? scale = some s) (hd : s.get? (.name "DEFAULT") = some d) :
    s.get? (.num 500) = some d := by
  have hm := get?_mem hs
  rw [colors_fields] at hm
  simp only [List.mem_cons, Prod.mk.injEq, List.mem_nil_iff, or_false] at hm
  rcases hm with ⟨-, rfl⟩ | ⟨-, rfl⟩ | ⟨-, rfl⟩
  · have h0 : primary.get? (.name "DEFAULT") = some (.str "#6B1C1D") := rfl
    rw [h0] at hd
    rw [← hd]
    rfl
  · have h0 : accent.get? (.name "DEFAULT") = some (.str "#9A1F21") := rfl
    rw [h0] at hd
    rw [← hd]
    rfl
  · have h0 : gray.get? (.name "DEFAULT") = none := rfl
    rw [h0] at hd
    cases hd

theorem default_is_shade_500_witness :
    colors.get? (.name "accent") = some accent ∧
      accent.get? (.name "DEFAULT") = some (.str "#9A1F21") ∧
      accent.get? (.num 500) = some (.str "#9A1F21") :=
  ⟨rfl, rfl, default_is_shade_500 (.name "accent") accent (.str "#9A1F21") rfl rfl⟩

/-- Claim C10. Every shade of `primary` and of `accent`, `DEFAULT` included,
has its red channel strictly above both its green and its blue channel and its
green channel at most its blue channel; every shade of `gray` has its three
channels equal. -/
theorem scale_hue_family (scale : Key) (s : Value) (k : Key) (v : Value)
    (hs : colors.get? scale = some s) (hk : s.get? k = some v) :
    ∃ r g b, v.rgb? = some (r, g, b) ∧
      (scale = .name "primary" ∨ scale = .name "accent" → g < r ∧ b < r ∧ g ≤ b) ∧
      (scale = .name "gray" → r = g ∧ g = b) := by
  have h : ∀ p ∈ colors.fields, ∀ q ∈ p.2.fields,
      ((p.1 = .name "primary" ∨ p.1 = .name "accent") ∧ isReddish q.2 = true) ∨
        (p.1 = .name "gray" ∧ isAchromatic q.2 = true) := by decide
  rcases h _ (get?_mem hs) _ (get?_mem hk) with ⟨hn, hr⟩ | ⟨hn, hg⟩
  · obtain ⟨r, g, b, hv, h1, h2, h3⟩ := isReddish_spec hr
    have hn0 : scale = .name "primary" ∨ scale = .name "accent" := hn
    refine ⟨r, g, b, hv, fun _ => ⟨h1, h2, h3⟩, fun hgray => ?_⟩
    subst hgray
    exact absurd hn0 (by decide)
  · obtain ⟨r, g, b, hv, h1, h2⟩ := isAchromatic_spec hg
    have hn0 : scale = .name "gray" := hn
    refine ⟨r, g, b, hv, fun hred => ?_, fun _ => ⟨h1, h2⟩⟩
    subst hn0
    exact absurd hred (by decide)

theorem scale_hue_family_witness :
    colors.get? (.name "gray") = some gray ∧
      gray.get? (.num 300) = some (.str "#C0C0C0") ∧
      ∃ r g b, (Value.str "#C0C0C0").rgb? = some (r, g, b) ∧
        (Key.name "gray" = .name "primary" ∨ Key.name "gray" = .name "accent" →
          g < r ∧ b < r ∧ g ≤ b) ∧
        (Key.name "gray" = .name "gray" → r = g ∧ g = b) :=
  ⟨rfl, rfl, scale_hue_family (.name "gray") gray (.num 300) (.str "#C0C0C0") rfl rfl⟩

/-! ## Shape of the configuration -/

/-- Claim C4 as stated fails: the token `sans` of the category `fontFamily`
is a list, neither a string nor a shade-scale mapping. -/
theorem font_family_sans_is_list :
    ¬ ∀ (cat : Key) (tokens : Value) (name : Key) (v : Value),
        extend.get? cat = some tokens → tokens.get? name = some v →
        v.isString = true ∨ v.isShadeScale = true := by
  intro h
  have := h (.name "fontFamily")
    (.obj [(.name "sans", .arr [.str "Poppins", .str "sans-serif"])])
    (.name "sans") (.arr [.str "Poppins", .str "sans-serif"]) rfl rfl
  revert this
  decide

/-- Claim C4, amended. Every token value of every design-token category under
`theme.extend` is a string, a shade-scale mapping from shade keys to hex color
strings, or, for the token `sans` of `fontFamily` only, a list of strings. -/
theorem token_values_shape (cat : Key) (tokens : Value) (name : Key) (v : Value)
    (hc : extend.get? cat = some tokens) (hn : tokens.get? name = some v) :
    v.isString = true ∨ v.isShadeScale = true ∨
      (cat = .name "fontFamily" ∧ name = .name "sans" ∧ v.isStringList = true) := by
  have h : ∀ p ∈ extend.fields, ∀ q ∈ p.2.fields,
      q.2.isString = true ∨ q.2.isShadeScale = true ∨
        (p.1 = .name "fontFamily" ∧ q.1 = .name "sans" ∧ q.2.isStringList = true) := by
    decide
  exact h _ (get?_mem hc) _ (get?_mem hn)

theorem token_values_shape_witness :
    extend.get? (.name "colors") = some colors ∧
      colors.get? (.name "gray") = some gray ∧
      (gray.isString = true ∨ gray.isShadeScale = true ∨
        (Key.name "colors" = .name "fontFamily" ∧ Key.name "gray" = .name "sans" ∧
          gray.isStringList = true)) :=
  ⟨rfl, rfl, token_values_shape (.name "colors") colors (.name "gray") gray rfl rfl⟩

/-- Claim C6. The exported object has exactly the top-level keys `content`,
`theme` and `plugins`; `theme` has exactly the key `extend`; `theme.extend`
has exactly the keys `fontFamily`, `colors`, `boxShadow` and `animation`. -/
theorem config_shape :
    config.keys = [.name "content", .name "theme", .name "plugins"] ∧
      (config.path? [.name "theme"]).map Value.keys = some [.name "extend"] ∧
      (config.path? [.name "theme", .name "extend"]).map Value.keys =
        some [.name "fontFamily", .name "colors", .name "boxShadow", .name "animation"] := by
  decide

/-- Claim C7. The entries of `content` are pairwise distinct strings, each
non-empty, with balanced and unnested braces, with every brace group a
comma-separated list of non-empty alternatives, and without `//`. -/
theorem content_globs_valid :
    ∃ globs : List String,
      config.get? (.name "content") = some (.arr (globs.map Value.str)) ∧
      globs.Nodup ∧
      ∀ g ∈ globs, g ≠ "" ∧ bracesOk false g.data = true ∧
        groupsOk none g.data = true ∧ noEmptySegment g.data = true :=
  ⟨["./index.html", "./src/**/*.{js,ts,jsx,tsx}"], rfl, by decide, by decide⟩

/-- Claim C8. The `plugins` entry of the exported object is the empty list:
no plugin is registered. -/
theorem plugins_empty :
    config.get? (.name "plugins") = some (.arr []) ∧
      (config.get? (.name "plugins")).map (fun v => v.items.length) = some 0 :=
  ⟨rfl, rfl⟩

end TailwindConfig
